import Mathlib

/-!
# Composed-tree tracking of the lume TreeNode class: a shallow embedding

This file embeds the composed-tree tracking and slot-distribution logic of the
TreeNode class (the COMPOSED TREE TRACKING code of the repository) in Lean and
proves properties of it.

Modelling conventions:
* DOM elements are identified by natural numbers.
* The static DOM facts a handler consults (parent links, slot assignment,
  capability flags, shadow-root children) are a `Dom` record supplied by the
  environment.  `assignedEls s` models `s.assignedElements({flatten: true})`,
  `parentNodeF` models `.parentNode` (an element, a shadow root identified by
  its host, or nothing), `isTreeNode` models `instanceof TreeNode`, `isNodeF`
  models the `isNode(el)` capability check, `isSceneF` the `isScene(el)` check,
  and `hasShadowDom` the `hasShadow(el)` check (whether the element owns a DOM
  shadow root).  Those helper predicates live outside the tracked class and are
  plain flag/field reads, per the specification's data model.
* The mutable per-node tracking state (`__distributedParent`,
  `__shadowRootParent`, `__distributedChildren`, the
  `__previousSlotAssignedNodes` snapshots, `__isPossiblyDistributedToShadowRoot`
  and `__shadowRoot`) is an `MState` record.  A JS `Set` is a duplicate-free
  list in insertion order; `undefined` is `none`.
* Each observer/lifecycle handler of the class becomes a function from state to
  state, also returning the list of externally visible actions it performs
  (lifecycle-callback trigger calls, listener registration, observation).  A
  JS exception (the removal pass reading `.delete` of an undefined set) is the
  `Act.crash` action: the handler stops, keeping the mutations made so far.
-/

namespace LumeTree

/-- A `.parentNode` value: an element, or a shadow root (identified by host). -/
inductive ParentRef where
  | elem (p : Nat)
  | root (host : Nat)
deriving DecidableEq, Repr

/-- The `connectionType` tag of the composed/uncomposed lifecycle callbacks. -/
inductive ConnType where
  | root
  | slot
  | actual
deriving DecidableEq, Repr

/-- Externally visible actions performed by the tracking handlers. -/
inductive Act where
  /-- A `__triggerChildComposedCallback(child, t)` call made by `parent`. -/
  | composed (parent child : Nat) (t : ConnType)
  /-- A `__triggerChildUncomposedCallback(child, t)` call made by `parent`. -/
  | uncomposed (parent child : Nat) (t : ConnType)
  /-- `addEventListener('slotchange', ...)` placed on a slot. -/
  | listen (slot : Nat)
  /-- `removeEventListener('slotchange', ...)` removed from a slot. -/
  | unlisten (slot : Nat)
  /-- The `defer(() => this.__handleDistributedChildren(slot))` scheduling. -/
  | deferredDistribution (parent slot : Nat)
  /-- `observeChildren(root, ..., deep)` started on the host's shadow root. -/
  | observeDeep (host : Nat)
  /-- A TypeError thrown inside a handler of `parent` (processing aborts). -/
  | crash (parent : Nat)
deriving DecidableEq, Repr

/-- Static DOM facts consulted by the handlers, supplied by the environment. -/
structure Dom where
  isSceneF : Nat → Bool
  isNodeF : Nat → Bool
  isTreeNode : Nat → Bool
  isSlot : Nat → Bool
  hasShadowDom : Nat → Bool
  parentNodeF : Nat → Option ParentRef
  assignedSlotF : Nat → Option Nat
  assignedEls : Nat → List Nat
  children : Nat → List Nat
  rootChildren : Nat → List Nat

/-- `el.parentElement`: the parent node when it is an element, else null. -/
def Dom.parentElement (dom : Dom) (n : Nat) : Option Nat :=
  match dom.parentNodeF n with
  | some (ParentRef.elem p) => some p
  | _ => none

/-- Pointwise update of a map keyed by node id. -/
def upd {α : Type} (f : Nat → α) (k : Nat) (v : α) : Nat → α :=
  fun x => if x == k then v else f x

/-- Pointwise update of a map keyed by (tracker, slot). -/
def upd2 {α : Type} (f : Nat → Nat → α) (p s : Nat) (v : α) : Nat → Nat → α :=
  fun x y => if x == p && y == s then v else f x y

/-- `Set.prototype.add`: appends when absent, keeps insertion order. -/
def setAdd (l : List Nat) (x : Nat) : List Nat :=
  if l.contains x then l else l ++ [x]

/-- `Set.prototype.delete`: removes the element, keeping order. -/
def setDelete (l : List Nat) (x : Nat) : List Nat :=
  l.filter (fun y => !(y == x))

/-- The mutable tracking state of all nodes (fields of the TreeNode class). -/
structure MState where
  /-- `__distributedParent` per node. -/
  dp : Nat → Option Nat
  /-- `__shadowRootParent` per node. -/
  srp : Nat → Option Nat
  /-- `__distributedChildren` per node (`none` = `undefined`). -/
  dchildren : Nat → Option (List Nat)
  /-- `__previousSlotAssignedNodes` snapshots, keyed by (tracker, slot). -/
  prevAssigned : Nat → Nat → Option (List Nat)
  /-- `__isPossiblyDistributedToShadowRoot` per node. -/
  flag : Nat → Bool
  /-- whether `__shadowRoot` is set on the node. -/
  hasRoot : Nat → Bool

/-- The all-clear initial tracking state. -/
def blank : MState :=
  ⟨fun _ => none, fun _ => none, fun _ => none, fun _ _ => none,
   fun _ => false, fun _ => false⟩

/-! ## The slot distribution diff (`__getDistributedChildDifference`) -/

/-- Result of `__getDistributedChildDifference`: the snapshot stored for next
time (the pre-diff clone of `newNodes`) and the `added`/`removed` diff. -/
structure DiffResult where
  snapshot : List Nat
  added : List Nat
  removed : List Nat
deriving DecidableEq, Repr

/-- The diff loop of `__getDistributedChildDifference`.  For each index `i` of
`previousNodes`: if `newNodes.indexOf(oldNode)` is negative, push `oldNode`
onto `removed`; otherwise `newNodes.splice(i, 1)` (note: the splice is at the
previous-list index `i`, exactly as in the source).  An out-of-range splice
removes nothing, which is `List.eraseIdx`'s behaviour too. -/
def diffLoop : List Nat → List Nat → List Nat → Nat → List Nat × List Nat
  | [], newNodes, removed, _ => (newNodes, removed)
  | oldNode :: rest, newNodes, removed, i =>
    if newNodes.contains oldNode then
      diffLoop rest (newNodes.eraseIdx i) removed (i + 1)
    else
      diffLoop rest newNodes (removed ++ [oldNode]) (i + 1)

/-- `__getDistributedChildDifference(slot)`, as a pure function of the data it
reads: the owning tracker's `isScene` flag, whether `slot.assignedSlot` is
non-null, the stored previous snapshot for the slot, and the slot's current
`assignedElements({flatten: true})` list. -/
def getDistributedChildDifference (sceneFlag reslotted : Bool)
    (prevOpt : Option (List Nat)) (assigned : List Nat) : DiffResult :=
  let previousNodes := prevOpt.getD []
  let newNodes := if !sceneFlag && reslotted then [] else assigned
  let result := diffLoop previousNodes newNodes [] 0
  ⟨newNodes, result.1, result.2⟩

/-! ## Callback triggers (`__triggerChild(Un)composedCallback`) -/

/-- How a lifecycle callback is delivered by a trigger call. -/
inductive Delivery where
  /-- invoked synchronously. -/
  | immediate
  /-- queued on `customElements.whenDefined(tagName)` and run on definition. -/
  | deferred
  /-- not invoked (the subclass defines no callback). -/
  | skipped
deriving DecidableEq, Repr

/-- `__triggerChildComposedCallback`: returns without calling when the subclass
has no `childComposedCallback`; calls it synchronously when the child matches
`:defined`; otherwise queues it on `customElements.whenDefined`. -/
def triggerChildComposedCallback (hasCallback isUpgraded : Bool) : Delivery :=
  if !hasCallback then Delivery.skipped
  else if isUpgraded then Delivery.immediate
  else Delivery.deferred

/-- `__triggerChildUncomposedCallback`: calls the callback synchronously when
defined; the child's upgrade state is never consulted. -/
def triggerChildUncomposedCallback (hasCallback : Bool) (_isUpgraded : Bool) :
    Delivery :=
  if hasCallback then Delivery.immediate else Delivery.skipped

/-! ## The composed-tree query layer (`_composedParent`, `_composedChildren`) -/

/-- The tail of both slot branches of `_composedParent`: `slotParent =
slot.parentNode; if (slotParent instanceof ShadowRoot) return slotParent.host;
else return slot.parentElement`. -/
def slotChainParent (dom : Dom) (s : Nat) : Option Nat :=
  match dom.parentNodeF s with
  | some (ParentRef.root host) => some host
  | _ => dom.parentElement s

/-- `_composedParent` after the leading Scene special case: return
`__distributedParent || __shadowRootParent` when set, else resolve from
`parentNode` (slot branch, shadow-root branch, plain-element branch), else
null. -/
def composedParentResolve (dom : Dom) (st : MState) (n : Nat) : Option Nat :=
  match st.dp n with
  | some d => some d
  | none =>
    match st.srp n with
    | some s => some s
    | none =>
      match dom.parentNodeF n with
      | some (ParentRef.elem p) =>
        if dom.isSlot p then
          if (dom.assignedEls p).length != 0 then none
          else slotChainParent dom p
        else
          if !dom.hasShadowDom p then some p
          else
            match dom.assignedSlotF n with
            | some s2 => slotChainParent dom s2
            | none => none
      | some (ParentRef.root host) => some host
      | none => none

/-- `_composedParent`: first the special case for children of a Scene (`if
(parent && isScene(parent)) return parent` on `this.parentElement`), then the
pointer/structural resolution. -/
def composedParent (dom : Dom) (st : MState) (n : Nat) : Option Nat :=
  match dom.parentElement n with
  | some p => if dom.isSceneF p then some p else composedParentResolve dom st n
  | none => composedParentResolve dom st n

/-- `_shadowRootChildren`: empty without a tracked `__shadowRoot`, else the
root's children filtered to TreeNode instances. -/
def shadowRootChildren (dom : Dom) (st : MState) (n : Nat) : List Nat :=
  if st.hasRoot n then (dom.rootChildren n).filter dom.isTreeNode else []

/-- The nested loops of `_distributedShadowRootChildren`: for each child of the
shadow root that is a slot with no `assignedSlot`, push its flattened assigned
elements that satisfy `isNode` onto the result. -/
def dsrcLoop (dom : Dom) : List Nat → List Nat → List Nat
  | [], result => result
  | c :: rest, result =>
    if dom.isSlot c && (dom.assignedSlotF c).isNone then
      dsrcLoop dom rest (result ++ (dom.assignedEls c).filter dom.isNodeF)
    else dsrcLoop dom rest result

/-- `_distributedShadowRootChildren` (iterates `this.__shadowRoot?.children ||
[]`). -/
def distributedShadowRootChildren (dom : Dom) (st : MState) (n : Nat) :
    List Nat :=
  dsrcLoop dom (if st.hasRoot n then dom.rootChildren n else []) []

/-- `_composedChildren`: for a non-Scene owner of a shadow root, the
distributed shadow-root children followed by the direct shadow-root children;
otherwise the `__distributedChildren` set followed by the structural children
that are TreeNode instances. -/
def composedChildren (dom : Dom) (st : MState) (n : Nat) : List Nat :=
  if !dom.isSceneF n && st.hasRoot n then
    distributedShadowRootChildren dom st n ++ shadowRootChildren dom st n
  else
    ((st.dchildren n).getD []) ++ (dom.children n).filter dom.isTreeNode

/-! ## The distribution state machine (`__handleDistributedChildren` etc.) -/

/-- The teardown at the head of the added-loop of
`__handleDistributedChildren`: remove the node from its previous
`__distributedParent`'s `__distributedChildren` set, dropping that set to
`undefined` when it empties. -/
def detachFromOldParent (st : MState) (a : Nat) : MState :=
  match st.dp a with
  | some oldP =>
    match st.dchildren oldP with
    | some dc =>
      let dc' := setDelete dc a
      if dc'.isEmpty then {st with dchildren := upd st.dchildren oldP none}
      else {st with dchildren := upd st.dchildren oldP (some dc')}
    | none => st
  | none => st

/-- The added-loop of `__handleDistributedChildren`: skip non-TreeNodes; tear
down the previous distributed edge; set `__distributedParent` to the tracker;
create / extend the tracker's `__distributedChildren`; trigger the composed
callback with type `slot`. -/
def handleAdded (dom : Dom) (tracker : Nat) :
    List Nat → MState → List Act → MState × List Act
  | [], st, log => (st, log)
  | a :: rest, st, log =>
    if dom.isTreeNode a then
      let st1 := detachFromOldParent st a
      let st2 := {st1 with dp := upd st1.dp a (some tracker)}
      let own := setAdd ((st2.dchildren tracker).getD []) a
      let st3 := {st2 with dchildren := upd st2.dchildren tracker (some own)}
      handleAdded dom tracker rest st3
        (log ++ [Act.composed tracker a ConnType.slot])
    else handleAdded dom tracker rest st log

/-- The removed-loop of `__handleDistributedChildren`: skip non-TreeNodes;
null `__distributedParent`; then `this.__distributedChildren!.delete(...)` -
when the set is `undefined` this is a TypeError and the handler aborts with
the mutations made so far; else delete (dropping the set when it empties) and
trigger the uncomposed callback with type `slot`. -/
def handleRemoved (dom : Dom) (tracker : Nat) :
    List Nat → MState → List Act → MState × List Act
  | [], st, log => (st, log)
  | r :: rest, st, log =>
    if dom.isTreeNode r then
      let st1 := {st with dp := upd st.dp r none}
      match st1.dchildren tracker with
      | none => (st1, log ++ [Act.crash tracker])
      | some dc =>
        let dc' := setDelete dc r
        let own := if dc'.isEmpty then none else some dc'
        let st2 := {st1 with dchildren := upd st1.dchildren tracker own}
        handleRemoved dom tracker rest st2
          (log ++ [Act.uncomposed tracker r ConnType.slot])
    else handleRemoved dom tracker rest st log

/-- `__handleDistributedChildren(slot)`: compute the diff, store the new
snapshot, process additions, then process removals. -/
def handleDistributedChildren (dom : Dom) (tracker s : Nat) (st : MState) :
    MState × List Act :=
  let diff := getDistributedChildDifference (dom.isSceneF tracker)
    (dom.assignedSlotF s).isSome (st.prevAssigned tracker s) (dom.assignedEls s)
  let st0 :=
    {st with prevAssigned := upd2 st.prevAssigned tracker s (some diff.snapshot)}
  let r1 := handleAdded dom tracker diff.added st0 []
  handleRemoved dom tracker diff.removed r1.1 r1.2

/-- `childConnectedCallback`: a capability-marked node under a non-Scene
shadowed parent only gets its possibly-distributed flag set; otherwise the
composed callback with type `actual` is triggered.  A slot child gets a
slotchange listener and a deferred `__handleDistributedChildren` run. -/
def stepConnected (dom : Dom) (parent child : Nat) (st : MState) :
    MState × List Act :=
  if dom.isNodeF child then
    if !dom.isSceneF parent && st.hasRoot parent then
      ({st with flag := upd st.flag child true}, [])
    else (st, [Act.composed parent child ConnType.actual])
  else if dom.isSlot child then
    (st, [Act.listen child, Act.deferredDistribution parent child])
  else (st, [])

/-- `childDisconnectedCallback`: mirror of `stepConnected`; a slot child's
removal runs `__handleDistributedChildren` synchronously and deletes the
slot's snapshot. -/
def stepDisconnected (dom : Dom) (parent child : Nat) (st : MState) :
    MState × List Act :=
  if dom.isNodeF child then
    if !dom.isSceneF parent && st.hasRoot parent then
      ({st with flag := upd st.flag child false}, [])
    else (st, [Act.uncomposed parent child ConnType.actual])
  else if dom.isSlot child then
    let r := handleDistributedChildren dom parent child st
    ({r.1 with prevAssigned := upd2 r.1.prevAssigned parent child none},
     Act.unlisten child :: r.2)
  else (st, [])

/-- `__shadowRootChildAdded`: a TreeNode child of the shadow root gets its
`__shadowRootParent` set and a composed callback with type `root`; a slot
child gets a slotchange listener and an immediate distribution run. -/
def stepRootChildAdded (dom : Dom) (host child : Nat) (st : MState) :
    MState × List Act :=
  if dom.isTreeNode child then
    ({st with srp := upd st.srp child (some host)},
     [Act.composed host child ConnType.root])
  else if dom.isSlot child then
    let r := handleDistributedChildren dom host child st
    (r.1, Act.listen child :: r.2)
  else (st, [])

/-- `__shadowRootChildRemoved`: mirror of `stepRootChildAdded`, clearing the
pointer / snapshot. -/
def stepRootChildRemoved (dom : Dom) (host child : Nat) (st : MState) :
    MState × List Act :=
  if dom.isTreeNode child then
    ({st with srp := upd st.srp child none},
     [Act.uncomposed host child ConnType.root])
  else if dom.isSlot child then
    let r := handleDistributedChildren dom host child st
    ({r.1 with prevAssigned := upd2 r.1.prevAssigned host child none},
     Act.unlisten child :: r.2)
  else (st, [])

/-- The loop at the end of `attachShadow`: for each current child that is a
TreeNode, set its possibly-distributed flag and trigger the uncomposed
callback with type `actual`. -/
def attachShadowLoop (dom : Dom) (host : Nat) :
    List Nat → MState → List Act → MState × List Act
  | [], st, log => (st, log)
  | c :: rest, st, log =>
    if dom.isTreeNode c then
      attachShadowLoop dom host rest {st with flag := upd st.flag c true}
        (log ++ [Act.uncomposed host c ConnType.actual])
    else attachShadowLoop dom host rest st log

/-- `attachShadow`: a Scene returns the root untouched (no `__shadowRoot`
recorded, no observation); otherwise the root is recorded, observed deeply,
and every current TreeNode child is flagged and uncomposed. -/
def stepAttachShadow (dom : Dom) (host : Nat) (st : MState) :
    MState × List Act :=
  if dom.isSceneF host then (st, [])
  else
    attachShadowLoop dom host (dom.children host)
      {st with hasRoot := upd st.hasRoot host true} [Act.observeDeep host]

/-- One tracked mutation delivered by the environment (the child observers,
the slotchange events, or an `attachShadow` call). -/
inductive MEvent where
  | attachShadow (host : Nat)
  | connected (parent child : Nat)
  | disconnected (parent child : Nat)
  | rootChildAdded (host child : Nat)
  | rootChildRemoved (host child : Nat)
  | slotChange (tracker slot : Nat)
deriving DecidableEq, Repr

/-- Dispatch one event to its handler. -/
def step (dom : Dom) (st : MState) : MEvent → MState × List Act
  | MEvent.attachShadow host => stepAttachShadow dom host st
  | MEvent.connected p c => stepConnected dom p c st
  | MEvent.disconnected p c => stepDisconnected dom p c st
  | MEvent.rootChildAdded h c => stepRootChildAdded dom h c st
  | MEvent.rootChildRemoved h c => stepRootChildRemoved dom h c st
  | MEvent.slotChange t s => handleDistributedChildren dom t s st

/-- Run a sequence of events, concatenating the performed actions.  An
exception escaping one handler does not stop delivery of later events. -/
def runTrace (dom : Dom) (st : MState) : List MEvent → MState × List Act
  | [] => (st, [])
  | e :: rest =>
    let r1 := step dom st e
    let r2 := runTrace dom r1.1 rest
    (r2.1, r1.2 ++ r2.2)

/-! ## Claim-shaped reference definitions (for refinement comparison) -/

/-- The composed-parent resolution chain as the (amended) specification words
it: the structural parent element is returned at once when it is a scene;
otherwise the distributed-parent pointer if set; else the shadow-root-parent
pointer if set; else, a slot structural parent yields null when the slot has
assigned elements and otherwise resolves through the slot's parent chain (a
shadow-root parent yielding its host); a shadow-root structural parent yields
its host; a shadowless structural parent element is returned directly; under a
shadowed parent, an unassigned node has no composed parent and an assigned
node resolves through its slot's parent chain. -/
def composedParentSpec (dom : Dom) (st : MState) (n : Nat) : Option Nat :=
  if (dom.parentElement n).elim false dom.isSceneF then dom.parentElement n
  else if (st.dp n).isSome then st.dp n
  else if (st.srp n).isSome then st.srp n
  else
    match dom.parentNodeF n with
    | some (ParentRef.elem p) =>
      if dom.isSlot p then
        if (dom.assignedEls p).isEmpty then
          match dom.parentNodeF p with
          | some (ParentRef.root host) => some host
          | some (ParentRef.elem q) => some q
          | none => none
        else none
      else if dom.hasShadowDom p then
        match dom.assignedSlotF n with
        | none => none
        | some s2 =>
          match dom.parentNodeF s2 with
          | some (ParentRef.root host) => some host
          | some (ParentRef.elem q) => some q
          | none => none
      else some p
    | some (ParentRef.root host) => some host
    | none => none

/-- The composed-children list as the specification words it: for a node that
owns a shadow root and is not a scene, the nodes assigned (flattened) to the
un-reslotted slot children of its shadow root, followed by the direct
shadow-root children that are tree nodes; for every other node, its
distributed-children set followed by its structural children filtered to
tree-node participants. -/
def composedChildrenSpec (dom : Dom) (st : MState) (n : Nat) : List Nat :=
  if st.hasRoot n && !dom.isSceneF n then
    ((dom.rootChildren n).filter
        (fun c => dom.isSlot c && (dom.assignedSlotF c).isNone)).flatMap
      (fun c => (dom.assignedEls c).filter dom.isNodeF)
      ++ (dom.rootChildren n).filter dom.isTreeNode
  else ((st.dchildren n).getD []) ++ (dom.children n).filter dom.isTreeNode

/-- Prop-level characterization of "every action handleDistributedChildren of
`tracker` can log": a composed or uncomposed trigger of `tracker` with
connection type `slot`, or a crash of `tracker`. -/
def slotOnly (tracker : Nat) : Act → Prop
  | Act.composed q _ t => q = tracker ∧ t = ConnType.slot
  | Act.uncomposed q _ t => q = tracker ∧ t = ConnType.slot
  | Act.crash q => q = tracker
  | _ => False

/-! ## Concrete scenarios -/

/-- A DOM with no nodes of interest; concrete scenarios override fields. -/
def baseDom : Dom :=
  ⟨fun _ => false, fun _ => false, fun _ => false, fun _ => false,
   fun _ => false, fun _ => none, fun _ => none, fun _ => [],
   fun _ => [], fun _ => []⟩

/-- Node 0's structural parent is element 1, a scene. -/
def sceneParentDom : Dom :=
  {baseDom with
    isSceneF := fun n => n == 1,
    parentNodeF := fun n => if n == 0 then some (ParentRef.elem 1) else none}

/-- Node 0 additionally carries a distributed-parent pointer to node 2. -/
def sceneParentState : MState :=
  {blank with dp := upd blank.dp 0 (some 2)}

/-- Re-slotting scenario: TreeNode 0 (X) moves from slot 3 (owned by boundary
1 = P1, where X was the only distributed child) to slot 4 (owned by boundary
2 = P2).  After the move slot 4's flattened assigned elements are `[0]` and
slot 3's are `[]`.  Neither slot is itself re-slotted and no tracker is a
scene. -/
def reslotDom : Dom :=
  {baseDom with
    isTreeNode := fun n => n == 0,
    isSlot := fun n => n == 3 || n == 4,
    assignedEls := fun s => if s == 4 then [0] else []}

/-- Tracking state before the move: X distributed to P1, P1's set is `{X}`,
and P1's snapshot for slot 3 is `[X]`. -/
def reslotState : MState :=
  {blank with
    dp := upd blank.dp 0 (some 1),
    dchildren := upd blank.dchildren 1 (some [0]),
    prevAssigned := upd2 blank.prevAssigned 1 3 (some [0])}

/-- Re-slotting scenario with a second distributed child: boundary 1 (P1) also
keeps TreeNode 5 (Y), assigned to slot 3; after the move slot 3's flattened
assigned elements are `[5]` and slot 4's are `[0]`. -/
def reslotTwoDom : Dom :=
  {baseDom with
    isTreeNode := fun n => n == 0 || n == 5,
    isSlot := fun n => n == 3 || n == 4,
    assignedEls := fun s => if s == 4 then [0] else if s == 3 then [5] else []}

/-- Tracking state before the move: X and Y distributed to P1, P1's set is
`{X, Y}`, P1's snapshot for slot 3 is `[X, Y]`. -/
def reslotTwoState : MState :=
  {blank with
    dp := fun n => if n == 0 || n == 5 then some 1 else none,
    dchildren := upd blank.dchildren 1 (some [0, 5]),
    prevAssigned := upd2 blank.prevAssigned 1 3 (some [0, 5])}

/-- Nested-boundary scenario: non-scene boundary 1 (P) deeply observes its
shadow root, which contains TreeNode 2 (Q); Q owns a shadow root containing
slot 3 (SQ); TreeNode 0 (X) is a child of Q and is assigned to SQ, so SQ's
flattened assigned elements are `[0]`. -/
def nestedRootDom : Dom :=
  {baseDom with
    isTreeNode := fun n => n == 0 || n == 2,
    isSlot := fun n => n == 3,
    assignedEls := fun s => if s == 3 then [0] else []}

/-- Structural-attach scenario: node 0 carries the tree-node capability
marker; parent 1 is no scene and owns no tracked shadow root. -/
def attachDom : Dom :=
  {baseDom with isNodeF := fun n => n == 0}

/-- State in which parent 1 owns a tracked shadow root. -/
def shadowedParentState : MState :=
  {blank with hasRoot := upd blank.hasRoot 1 true}

/-- attachShadow scenario: host 1 (not a scene) has the structural children
`[0, 6]`, of which only 0 is a TreeNode; node 7 is a scene. -/
def attachShadowDom : Dom :=
  {baseDom with
    isSceneF := fun n => n == 7,
    isTreeNode := fun n => n == 0,
    children := fun h => if h == 1 then [0, 6] else if h == 7 then [0] else []}

/-! ## Helper lemmas -/

/-- When the newly resolved list is empty, the diff loop removes every
previous node and adds nothing. -/
theorem diffLoop_nil_new (prev : List Nat) : ∀ (acc : List Nat) (i : Nat),
    diffLoop prev [] acc i = ([], acc ++ prev) := by
  induction prev with
  | nil => intro acc i; simp [diffLoop]
  | cons a rest ih => intro acc i; simp [diffLoop, ih, List.append_assoc]

/-- The accumulator loop of `_distributedShadowRootChildren` is a
filter-then-flatten. -/
theorem dsrcLoop_eq (dom : Dom) : ∀ (l acc : List Nat),
    dsrcLoop dom l acc =
      acc ++ (l.filter
          (fun c => dom.isSlot c && (dom.assignedSlotF c).isNone)).flatMap
        (fun c => (dom.assignedEls c).filter dom.isNodeF) := by
  intro l
  induction l with
  | nil => intro acc; simp [dsrcLoop]
  | cons c rest ih =>
    intro acc
    cases h : dom.isSlot c && (dom.assignedSlotF c).isNone with
    | true => simp [dsrcLoop, h, ih, List.filter_cons, List.append_assoc]
    | false => simp [dsrcLoop, h, ih, List.filter_cons]

/-- Updating a boolean map never unsets an already-true point when the new
value is true. -/
theorem upd_true (f : Nat → Bool) (c x : Nat) (h : f x = true) :
    upd f c true x = true := by
  unfold upd
  cases hxc : x == c with
  | true => rfl
  | false => exact h

/-- The attachShadow loop leaves `hasRoot` untouched, only sets flags to true,
and only appends to the action log. -/
theorem attachShadowLoop_mono (dom : Dom) (host : Nat) :
    ∀ (cs : List Nat) (st : MState) (log : List Act),
      (attachShadowLoop dom host cs st log).1.hasRoot = st.hasRoot ∧
      (∀ x, st.flag x = true →
        (attachShadowLoop dom host cs st log).1.flag x = true) ∧
      (∀ a, a ∈ log → a ∈ (attachShadowLoop dom host cs st log).2) := by
  intro cs
  induction cs with
  | nil => intro st log; exact ⟨rfl, fun _ h => h, fun _ h => h⟩
  | cons c rest ih =>
    intro st log
    cases hc : dom.isTreeNode c with
    | true =>
      have h := ih {st with flag := upd st.flag c true}
        (log ++ [Act.uncomposed host c ConnType.actual])
      refine ⟨?_, ?_, ?_⟩
      · simpa [attachShadowLoop, hc] using h.1
      · intro x hx
        have hx2 : ({st with flag := upd st.flag c true} : MState).flag x =
            true := upd_true st.flag c x hx
        simpa [attachShadowLoop, hc] using h.2.1 x hx2
      · intro a ha
        have ha2 : a ∈ log ++ [Act.uncomposed host c ConnType.actual] :=
          List.mem_append.mpr (Or.inl ha)
        simpa [attachShadowLoop, hc] using h.2.2 a ha2
    | false =>
      have h := ih st log
      exact ⟨by simpa [attachShadowLoop, hc] using h.1,
        fun x hx => by simpa [attachShadowLoop, hc] using h.2.1 x hx,
        fun a ha => by simpa [attachShadowLoop, hc] using h.2.2 a ha⟩

/-- Every TreeNode in the processed list ends flagged and uncomposed. -/
theorem attachShadowLoop_covers (dom : Dom) (host : Nat) :
    ∀ (cs : List Nat) (st : MState) (log : List Act) (c : Nat),
      c ∈ cs → dom.isTreeNode c = true →
      (attachShadowLoop dom host cs st log).1.flag c = true ∧
      Act.uncomposed host c ConnType.actual ∈
        (attachShadowLoop dom host cs st log).2 := by
  intro cs
  induction cs with
  | nil => intro st log c hm; cases hm
  | cons d rest ih =>
    intro st log c hm ht
    cases hd : dom.isTreeNode d with
    | true =>
      rcases List.mem_cons.mp hm with heq | hmr
      · subst heq
        have hmono := attachShadowLoop_mono dom host rest
          {st with flag := upd st.flag c true}
          (log ++ [Act.uncomposed host c ConnType.actual])
        have hflag : ({st with flag := upd st.flag c true} : MState).flag c =
            true := by simp [upd]
        constructor
        · simpa [attachShadowLoop, hd] using hmono.2.1 c hflag
        · have hmem : Act.uncomposed host c ConnType.actual ∈
              log ++ [Act.uncomposed host c ConnType.actual] := by simp
          simpa [attachShadowLoop, hd] using hmono.2.2 _ hmem
      · have h := ih {st with flag := upd st.flag d true}
          (log ++ [Act.uncomposed host d ConnType.actual]) c hmr ht
        exact ⟨by simpa [attachShadowLoop, hd] using h.1,
          by simpa [attachShadowLoop, hd] using h.2⟩
    | false =>
      rcases List.mem_cons.mp hm with heq | hmr
      · subst heq; rw [ht] at hd; cases hd
      · have h := ih st log c hmr ht
        exact ⟨by simpa [attachShadowLoop, hd] using h.1,
          by simpa [attachShadowLoop, hd] using h.2⟩

/-- The attachShadow loop never logs a composed trigger. -/
theorem attachShadowLoop_no_composed (dom : Dom) (host : Nat) :
    ∀ (cs : List Nat) (st : MState) (log : List Act),
      (∀ q x t, Act.composed q x t ∉ log) →
      ∀ q x t, Act.composed q x t ∉ (attachShadowLoop dom host cs st log).2 := by
  intro cs
  induction cs with
  | nil => intro st log h; exact h
  | cons d rest ih =>
    intro st log h q x t
    cases hd : dom.isTreeNode d with
    | true =>
      have h2 : ∀ q x t, Act.composed q x t ∉
          log ++ [Act.uncomposed host d ConnType.actual] := by
        intro q x t hmem
        rcases List.mem_append.mp hmem with h1 | h1
        · exact h q x t h1
        · simp at h1
      have h3 := ih {st with flag := upd st.flag d true}
        (log ++ [Act.uncomposed host d ConnType.actual]) h2 q x t
      simpa [attachShadowLoop, hd] using h3
    | false =>
      have h3 := ih st log h q x t
      simpa [attachShadowLoop, hd] using h3

/-- The added-pass of the distribution handler only logs slot-typed triggers
of the owning tracker. -/
theorem handleAdded_slotOnly (dom : Dom) (tracker : Nat) :
    ∀ (l : List Nat) (st : MState) (log : List Act),
      (∀ a ∈ log, slotOnly tracker a) →
      ∀ a ∈ (handleAdded dom tracker l st log).2, slotOnly tracker a := by
  intro l
  induction l with
  | nil => intro st log h; exact h
  | cons x rest ih =>
    intro st log h a ha
    cases hx : dom.isTreeNode x with
    | true =>
      refine ih _ _ ?_ a (by simpa [handleAdded, hx] using ha)
      intro b hb
      rcases List.mem_append.mp hb with h1 | h1
      · exact h b h1
      · simp at h1; subst h1; exact ⟨rfl, rfl⟩
    | false => exact ih _ _ h a (by simpa [handleAdded, hx] using ha)

/-- The removed-pass of the distribution handler only logs slot-typed
triggers or a crash of the owning tracker. -/
theorem handleRemoved_slotOnly (dom : Dom) (tracker : Nat) :
    ∀ (l : List Nat) (st : MState) (log : List Act),
      (∀ a ∈ log, slotOnly tracker a) →
      ∀ a ∈ (handleRemoved dom tracker l st log).2, slotOnly tracker a := by
  intro l
  induction l with
  | nil => intro st log h; exact h
  | cons x rest ih =>
    intro st log h a ha
    cases hx : dom.isTreeNode x with
    | true =>
      cases hdc : st.dchildren tracker with
      | none =>
        have ha2 : a ∈ log ++ [Act.crash tracker] := by
          simpa [handleRemoved, hx, hdc] using ha
        rcases List.mem_append.mp ha2 with h1 | h1
        · exact h a h1
        · simp at h1; subst h1; exact rfl
      | some dc =>
        refine ih _ _ ?_ a (by simpa [handleRemoved, hx, hdc] using ha)
        intro b hb
        rcases List.mem_append.mp hb with h1 | h1
        · exact h b h1
        · simp at h1; subst h1; exact ⟨rfl, rfl⟩
    | false => exact ih _ _ h a (by simpa [handleRemoved, hx] using ha)

/-- The distribution handler only logs slot-typed triggers or a crash of the
owning tracker. -/
theorem handleDistributedChildren_slotOnly (dom : Dom) (tracker s : Nat)
    (st : MState) :
    ∀ a ∈ (handleDistributedChildren dom tracker s st).2, slotOnly tracker a :=
  handleRemoved_slotOnly dom tracker _ _ _
    (handleAdded_slotOnly dom tracker _ _ _ (by intro a ha; cases ha))

/-! ## Claim theorems -/

/-- Claim C1 (code bug witness): on previous assigned list `[A, B, C]`
(modelled as 10, 11, 12) and new list `[B, C, D]` (11, 12, 13), the source
diff yields `removed = [A, C]` and `added = [B, D]` instead of the claimed
`removed = [A]`, `added = [D]`: the matched element is spliced out of the
working copy at the previous-list index instead of at its found index. -/
theorem diff_splice_miscount :
    (getDistributedChildDifference false false (some [10, 11, 12])
      [11, 12, 13]).removed = [10, 12] ∧
    (getDistributedChildDifference false false (some [10, 11, 12])
      [11, 12, 13]).added = [11, 13] := by decide

/-- Claim C2 (counterexample): a node whose structural parent element is a
scene gets that scene as composed parent even though its distributed-parent
pointer is set to a different node, so the claimed chain (distributed parent
first) fails as stated. -/
theorem composedParent_scene_shortcircuit :
    sceneParentState.dp 0 = some 2 ∧
    composedParent sceneParentDom sceneParentState 0 = some 1 ∧
    composedParent sceneParentDom sceneParentState 0 ≠ some 2 := by decide

/-- Claim C2 (amended): the composed-parent getter equals the claimed
resolution chain once the scene short-circuit is put first: a scene
structural parent element is returned immediately; otherwise the
distributed-parent pointer if set, else the shadow-root-parent pointer if
set, else slot / shadow-root / plain-element structural resolution exactly
as the specification words it. -/
theorem composedParent_amended (dom : Dom) (st : MState) (n : Nat) :
    composedParent dom st n = composedParentSpec dom st n := by
  have hslot : ∀ s, slotChainParent dom s =
      (match dom.parentNodeF s with
       | some (ParentRef.root host) => some host
       | some (ParentRef.elem q) => some q
       | none => none) := by
    intro s
    unfold slotChainParent Dom.parentElement
    cases hps : dom.parentNodeF s with
    | none => rfl
    | some pr => cases pr <;> rfl
  unfold composedParent composedParentSpec composedParentResolve
    Dom.parentElement
  cases hpn : dom.parentNodeF n with
  | none => cases hdp : st.dp n <;> cases hsrp : st.srp n <;> simp [hdp, hsrp]
  | some pr =>
    cases pr with
    | root h =>
      cases hdp : st.dp n <;> cases hsrp : st.srp n <;> simp [hdp, hsrp]
    | elem p =>
      cases hsc : dom.isSceneF p with
      | true => simp [hsc]
      | false =>
        cases hdp : st.dp n with
        | some d => simp [hsc, hdp]
        | none =>
          cases hsrp : st.srp n with
          | some s => simp [hsc, hdp, hsrp]
          | none =>
            cases hsl : dom.isSlot p with
            | true =>
              cases hae : dom.assignedEls p with
              | nil => simp [hsc, hdp, hsrp, hsl, hae, hslot]
              | cons a l => simp [hsc, hdp, hsrp, hsl, hae]
            | false =>
              cases hsh : dom.hasShadowDom p with
              | false => simp [hsc, hdp, hsrp, hsl, hsh]
              | true =>
                cases has : dom.assignedSlotF n with
                | none => simp [hsc, hdp, hsrp, hsl, hsh, has]
                | some s2 => simp [hsc, hdp, hsrp, hsl, hsh, has, hslot]

/-- Claim C3 (code bug witness): re-slotting X (node 0) from slot 3 of
boundary P1 = 1 to slot 4 of boundary P2 = 2, with the gaining slot's
slotchange processed first and X being the only distributed child of P1,
triggers exactly one composed callback of type slot on P2 but then crashes
inside the removal pass of P1 (the TypeError on the undefined
distributed-children set), so P1 never receives the claimed uncomposed
callback. -/
theorem reslot_crash_drops_uncomposed :
    (runTrace reslotDom reslotState
      [MEvent.slotChange 2 4, MEvent.slotChange 1 3]).2 =
      [Act.composed 2 0 ConnType.slot, Act.crash 1] := by decide

/-- Claim C4 (code bug witness): with boundary P = 1 deeply observing its
shadow root that hosts TreeNode Q = 2 (whose own shadow root holds slot
SQ = 3), adding TreeNode X = 0 as child of Q makes P's deep observer set
X's shadow-root parent while the slot distribution sets X's distributed
parent, leaving both pointers non-null at once. -/
theorem double_parent_pointers :
    (runTrace nestedRootDom blank [MEvent.rootChildAdded 1 2,
      MEvent.rootChildAdded 1 0, MEvent.rootChildAdded 2 3]).1.srp 0 = some 1 ∧
    (runTrace nestedRootDom blank [MEvent.rootChildAdded 1 2,
      MEvent.rootChildAdded 1 0, MEvent.rootChildAdded 2 3]).1.dp 0 = some 2 := by
  decide

/-- Claim C5 (code bug witness): re-slotting X (node 0) from slot 3 of
boundary P1 = 1 (which also keeps distributed child Y = 5) to slot 4 of
boundary P2 = 2, with the gaining slot processed first, ends with X inside
P2 distributed-children set while X distributed-parent pointer has been
nulled by the losing slot removal pass, breaking bidirectional consistency. -/
theorem distributed_edge_inconsistency :
    (runTrace reslotTwoDom reslotTwoState
      [MEvent.slotChange 2 4, MEvent.slotChange 1 3]).1.dchildren 2 = some [0] ∧
    (runTrace reslotTwoDom reslotTwoState
      [MEvent.slotChange 2 4, MEvent.slotChange 1 3]).1.dp 0 = none := by decide

/-- Claim C6: a slot that is itself assigned to another slot contributes the
empty resolved list to a non-scene tracker (so every previously recorded node
is diffed as removed and nothing is added), while a scene tracker resolves
the slot to its flattened assigned elements regardless of re-slotting. -/
theorem reslotted_slot_contribution (prevOpt : Option (List Nat))
    (assigned : List Nat) (b : Bool) :
    (getDistributedChildDifference false true prevOpt assigned).snapshot = [] ∧
    (getDistributedChildDifference false true prevOpt assigned).removed =
      prevOpt.getD [] ∧
    (getDistributedChildDifference false true prevOpt assigned).added = [] ∧
    (getDistributedChildDifference true b prevOpt assigned).snapshot =
      assigned := by
  refine ⟨rfl, ?_, ?_, ?_⟩
  · simp [getDistributedChildDifference, diffLoop_nil_new]
  · simp [getDistributedChildDifference, diffLoop_nil_new]
  · simp [getDistributedChildDifference]

/-- Claim C7: for a non-scene owner of a shadow root the composed children
are the nodes assigned (flattened) to the un-reslotted slot children of the
root followed by the direct shadow-root children that are TreeNodes; for
every other node they are the distributed-children set followed by the
structural children filtered to TreeNodes. -/
theorem composedChildren_characterization (dom : Dom) (st : MState) (n : Nat) :
    composedChildren dom st n = composedChildrenSpec dom st n := by
  unfold composedChildren composedChildrenSpec distributedShadowRootChildren
    shadowRootChildren
  cases hs : dom.isSceneF n with
  | true => simp [hs]
  | false =>
    cases hr : st.hasRoot n with
    | true => simp [hs, hr, dsrcLoop_eq]
    | false => simp [hs, hr]

/-- Claim C8 (counterexample): an uncomposed trigger on a not-yet-upgraded
child with a defined callback is delivered synchronously, not queued for
definition, so the claimed timing guarantee fails for uncomposed callbacks. -/
theorem uncomposed_fires_before_upgrade :
    triggerChildUncomposedCallback true false = Delivery.immediate ∧
    Delivery.immediate ≠ Delivery.deferred := by decide

/-- Claim C8 (amended): composed callbacks are never delivered synchronously
to a not-yet-upgraded child (they are queued on whenDefined), while
uncomposed callbacks are delivered synchronously whenever the callback is
defined, regardless of upgrade state. -/
theorem callback_timing_amended :
    (∀ cb : Bool, triggerChildComposedCallback cb false ≠ Delivery.immediate) ∧
    triggerChildComposedCallback true false = Delivery.deferred ∧
    (∀ cb up : Bool, triggerChildUncomposedCallback cb up =
      if cb then Delivery.immediate else Delivery.skipped) := by decide

/-- Which event can log a composed trigger of each connection type: root-typed
triggers come from a shadow-root child addition, actual-typed ones from a
structural connection, and every other composed trigger is slot-typed. -/
theorem step_composed_origin (dom : Dom) (st : MState) :
    ∀ (e : MEvent) (q x : Nat) (t : ConnType),
      Act.composed q x t ∈ (step dom st e).2 →
      (t = ConnType.root ∧ e = MEvent.rootChildAdded q x) ∨
      (t = ConnType.actual ∧ e = MEvent.connected q x) ∨ t = ConnType.slot := by
  intro e q x t hmem
  cases e with
  | attachShadow h =>
    exfalso
    cases hs : dom.isSceneF h with
    | true => simp [step, stepAttachShadow, hs] at hmem
    | false =>
      refine attachShadowLoop_no_composed dom h (dom.children h)
        {st with hasRoot := upd st.hasRoot h true} [Act.observeDeep h]
        ?_ q x t ?_
      · intro q2 x2 t2 hm2; simp at hm2
      · simpa [step, stepAttachShadow, hs] using hmem
  | connected p c =>
    cases hn : dom.isNodeF c with
    | true =>
      cases hcond : !dom.isSceneF p && st.hasRoot p with
      | true => exfalso; simp [step, stepConnected, hn, hcond] at hmem
      | false =>
        right; left
        simp [step, stepConnected, hn, hcond] at hmem
        exact ⟨hmem.2.2, by rw [hmem.1, hmem.2.1]⟩
    | false =>
      cases hsl : dom.isSlot c with
      | true => exfalso; simp [step, stepConnected, hn, hsl] at hmem
      | false => exfalso; simp [step, stepConnected, hn, hsl] at hmem
  | disconnected p c =>
    cases hn : dom.isNodeF c with
    | true =>
      cases hcond : !dom.isSceneF p && st.hasRoot p with
      | true => exfalso; simp [step, stepDisconnected, hn, hcond] at hmem
      | false => exfalso; simp [step, stepDisconnected, hn, hcond] at hmem
    | false =>
      cases hsl : dom.isSlot c with
      | true =>
        right; right
        have hmem2 : Act.composed q x t ∈
            (handleDistributedChildren dom p c st).2 := by
          simpa [step, stepDisconnected, hn, hsl] using hmem
        exact (handleDistributedChildren_slotOnly dom p c st _ hmem2).2
      | false => exfalso; simp [step, stepDisconnected, hn, hsl] at hmem
  | rootChildAdded h c =>
    cases ht : dom.isTreeNode c with
    | true =>
      left
      simp [step, stepRootChildAdded, ht] at hmem
      exact ⟨hmem.2.2, by rw [hmem.1, hmem.2.1]⟩
    | false =>
      cases hsl : dom.isSlot c with
      | true =>
        right; right
        have hmem2 : Act.composed q x t ∈
            (handleDistributedChildren dom h c st).2 := by
          simpa [step, stepRootChildAdded, ht, hsl] using hmem
        exact (handleDistributedChildren_slotOnly dom h c st _ hmem2).2
      | false => exfalso; simp [step, stepRootChildAdded, ht, hsl] at hmem
  | rootChildRemoved h c =>
    cases ht : dom.isTreeNode c with
    | true => exfalso; simp [step, stepRootChildRemoved, ht] at hmem
    | false =>
      cases hsl : dom.isSlot c with
      | true =>
        right; right
        have hmem2 : Act.composed q x t ∈
            (handleDistributedChildren dom h c st).2 := by
          simpa [step, stepRootChildRemoved, ht, hsl] using hmem
        exact (handleDistributedChildren_slotOnly dom h c st _ hmem2).2
      | false => exfalso; simp [step, stepRootChildRemoved, ht, hsl] at hmem
  | slotChange tr s =>
    right; right
    have hmem2 : Act.composed q x t ∈
        (handleDistributedChildren dom tr s st).2 := by
      simpa [step] using hmem
    exact (handleDistributedChildren_slotOnly dom tr s st _ hmem2).2

/-- Claim C9: connecting a tree-node child to a parent without an active
shadow root (or a scene) triggers exactly the composed callback of type
actual (whose delivery is deferred until definition when the child is not
upgraded); connecting it to a non-scene parent with an active shadow root
only sets the possibly-distributed flag and triggers nothing; a root-typed
composed trigger arises only from a shadow-root child addition and an
actual-typed composed trigger only from a structural connection. -/
theorem structural_attach_transition (dom : Dom) (st : MState)
    (parent child : Nat) :
    (dom.isNodeF child = true →
      dom.isSceneF parent = true ∨ st.hasRoot parent = false →
      stepConnected dom parent child st =
        (st, [Act.composed parent child ConnType.actual])) ∧
    (dom.isNodeF child = true → dom.isSceneF parent = false →
      st.hasRoot parent = true →
      stepConnected dom parent child st =
        ({st with flag := upd st.flag child true}, [])) ∧
    (dom.isTreeNode child = true →
      stepRootChildAdded dom parent child st =
        ({st with srp := upd st.srp child (some parent)},
         [Act.composed parent child ConnType.root])) ∧
    (∀ e q x, Act.composed q x ConnType.root ∈ (step dom st e).2 →
      e = MEvent.rootChildAdded q x) ∧
    (∀ e q x, Act.composed q x ConnType.actual ∈ (step dom st e).2 →
      e = MEvent.connected q x) ∧
    triggerChildComposedCallback true false = Delivery.deferred := by
  refine ⟨?_, ?_, ?_, ?_, ?_, by decide⟩
  · intro hn hd
    rcases hd with h | h
    · simp [stepConnected, hn, h]
    · simp [stepConnected, hn, h]
  · intro hn hsc hr
    simp [stepConnected, hn, hsc, hr]
  · intro ht
    simp [stepRootChildAdded, ht]
  · intro e q x hmem
    rcases step_composed_origin dom st e q x ConnType.root hmem with
      ⟨_, he⟩ | ⟨hta, _⟩ | hts
    · exact he
    · exact absurd hta (by decide)
    · exact absurd hts (by decide)
  · intro e q x hmem
    rcases step_composed_origin dom st e q x ConnType.actual hmem with
      ⟨htr, _⟩ | ⟨_, he⟩ | hts
    · exact absurd htr (by decide)
    · exact he
    · exact absurd hts (by decide)

/-- Witness for Claim C9: connecting capability-marked node 0 to parent 1
(no scene, no tracked shadow root) leaves the state unchanged and triggers
exactly the composed callback of type actual. -/
theorem structural_attach_transition_witness :
    stepConnected attachDom 1 0 blank =
      (blank, [Act.composed 1 0 ConnType.actual]) :=
  (structural_attach_transition attachDom blank 1 0).1 (by decide)
    (Or.inr (by decide))

/-- Claim C10: attaching a shadow root to a scene leaves the tracking state
untouched (composed children stay computed from the distributed set and the
light children), while attaching one to a non-scene records the root, starts
deep observation, and synchronously flags and uncomposes (type actual) every
current structural child that is a TreeNode, triggering no composed
callback. -/
theorem attachShadow_uncomposes_children (dom : Dom) (st : MState)
    (host : Nat) :
    (dom.isSceneF host = true →
      stepAttachShadow dom host st = (st, []) ∧
      composedChildren dom st host =
        ((st.dchildren host).getD []) ++
          (dom.children host).filter dom.isTreeNode) ∧
    (dom.isSceneF host = false →
      (stepAttachShadow dom host st).1.hasRoot host = true ∧
      Act.observeDeep host ∈ (stepAttachShadow dom host st).2 ∧
      (∀ c, c ∈ dom.children host → dom.isTreeNode c = true →
        (stepAttachShadow dom host st).1.flag c = true ∧
        Act.uncomposed host c ConnType.actual ∈
          (stepAttachShadow dom host st).2) ∧
      (∀ q x t, Act.composed q x t ∉ (stepAttachShadow dom host st).2)) := by
  constructor
  · intro hs
    constructor
    · simp [stepAttachShadow, hs]
    · simp [composedChildren, hs]
  · intro hs
    have hstep : stepAttachShadow dom host st =
        attachShadowLoop dom host (dom.children host)
          {st with hasRoot := upd st.hasRoot host true} [Act.observeDeep host] := by
      simp [stepAttachShadow, hs]
    have hmono := attachShadowLoop_mono dom host (dom.children host)
      {st with hasRoot := upd st.hasRoot host true} [Act.observeDeep host]
    refine ⟨?_, ?_, ?_, ?_⟩
    · rw [hstep, hmono.1]
      simp [upd]
    · rw [hstep]
      exact hmono.2.2 _ (by simp)
    · intro c hc ht
      have h := attachShadowLoop_covers dom host (dom.children host)
        {st with hasRoot := upd st.hasRoot host true} [Act.observeDeep host]
        c hc ht
      rw [hstep]
      exact h
    · intro q x t
      rw [hstep]
      refine attachShadowLoop_no_composed dom host (dom.children host)
        {st with hasRoot := upd st.hasRoot host true} [Act.observeDeep host]
        ?_ q x t
      intro q2 x2 t2 hm2
      simp at hm2

/-- Witness for Claim C10: attaching a shadow root to scene 7 changes
nothing, while attaching one to non-scene 1 flags its TreeNode child 0. -/
theorem attachShadow_uncomposes_children_witness :
    stepAttachShadow attachShadowDom 7 blank = (blank, []) ∧
    (stepAttachShadow attachShadowDom 1 blank).1.flag 0 = true :=
  ⟨((attachShadow_uncomposes_children attachShadowDom blank 7).1
      (by decide)).1,
   (((attachShadow_uncomposes_children attachShadowDom blank 1).2
      (by decide)).2.2.1 0 (by decide) (by decide)).1⟩

end LumeTree
